import Mathlib

/-!
Verification development for the `Corrections` engine of
`OER_corrections.py`: thermochemical correction terms (zero-point energy,
vibrational entropy, internal-energy variation) computed from a list of
vibrational frequencies (cm⁻¹) and a temperature (K).

Modelling conventions:
* Python float arithmetic is modelled over the exact reals `ℝ`; the three
  module-level physical constants are the exact decimal values stored in
  scipy's CODATA table (`Boltzmann constant in eV/K`, `Planck constant in
  eV/Hz`, speed of light in cm/s).
* Python runtime values reaching the constructor are modelled by the
  inductive `PyVal` (strings, ints, floats, lists, tuples); Python float
  *values* are dyadic rationals, so the `float` constructor carries a `ℚ`,
  which is cast to `ℝ` when the numerical formulas consume it.
* `TypeError`/`ValueError` (the spec's `InvalidArgumentType` /
  `InvalidArgumentValue`) are modelled by `PyErr` carrying the exact
  message string raised by the source.
* The constructor `Corrections.__init__` is modelled by `validate`
  (the fail-fast argument checking, a direct transcription of the
  `if`/`elif` cascade) together with `init`, which runs `validate` and, on
  success, builds the result record exactly as the constructor populates
  `self`.  The `print` calls are output formatting with no effect on any
  stored value and are not modelled.
-/

/-- Value of `sc.physical_constants["Boltzmann constant in eV/K"][0]`, in eV·K⁻¹. -/
noncomputable def boltzmann_constant : ℝ := 8.617333262e-5

/-- Value of `sc.physical_constants["Planck constant in eV/Hz"][0]`, in eV·s. -/
noncomputable def planck_constant : ℝ := 4.135667696e-15

/-- Value of `sc.speed_of_light/sc.centi`: the speed of light in cm/s. -/
noncomputable def speed_of_light : ℝ := 2.99792458e10

/-- Source line `gas_constant_R = boltzmann_constant` (eV·K⁻¹): the per-molecule gas
constant, i.e. the molar gas constant already divided by Avogadro's number. -/
noncomputable def gas_constant_R : ℝ := boltzmann_constant

/-- Source method `Corrections.calculate_ZPE`: zero-point energy (eV) from a list of
vibrational frequencies (cm⁻¹): `0.5*np.sum([h*c*freq for freq in fl])`. -/
noncomputable def calculate_ZPE (frequency_list : List ℝ) : ℝ :=
  0.5 * (frequency_list.map
    (fun freq => planck_constant * speed_of_light * freq)).sum

/-- The local lambda `hnu_over_kt` shared by `calculate_Svib` and
`calculate_deltaU`: the dimensionless ratio `h*c*f/(k_B*T)`. -/
noncomputable def hnu_over_kt (temperature f : ℝ) : ℝ :=
  planck_constant * speed_of_light * f / (boltzmann_constant * temperature)

/-- Source method `Corrections.calculate_Svib`: vibrational entropy contribution, the
term-by-term transcription of the source's comprehension. -/
noncomputable def calculate_Svib (frequency_list : List ℝ) (temperature : ℝ) : ℝ :=
  gas_constant_R * (frequency_list.map (fun frequency =>
    planck_constant * speed_of_light * frequency /
      (boltzmann_constant * temperature *
        (Real.exp (hnu_over_kt temperature frequency) - 1)) -
    Real.log (1 - Real.exp (-(hnu_over_kt temperature frequency))))).sum

/-- Source method `Corrections.calculate_deltaU`: internal-energy variation 0→T, the
term-by-term transcription of the source's comprehension. -/
noncomputable def calculate_deltaU (frequency_list : List ℝ) (temperature : ℝ) : ℝ :=
  gas_constant_R * (frequency_list.map (fun frequency =>
    planck_constant * speed_of_light * frequency /
      (boltzmann_constant *
        (Real.exp (hnu_over_kt temperature frequency) - 1)))).sum

/-- Python runtime values that can reach the constructor's arguments.
Python float values are dyadic rationals, hence `ℚ` payloads. -/
inductive PyVal where
  | str (s : String)
  | int (n : ℤ)
  | float (q : ℚ)
  | list (l : List PyVal)
  | tuple (l : List PyVal)
deriving Repr

/-- The two exception kinds the constructor raises, with the exact message:
`TypeError` is the spec's `InvalidArgumentType`, `ValueError` the spec's
`InvalidArgumentValue`. -/
inductive PyErr where
  | typeError (msg : String)
  | valueError (msg : String)
deriving Repr, DecidableEq

/-- Rendering of a value inside the f-string
`f"... Invalid element: {freq}."` (Python's `str()`).  Exact for the ints
and strings the claims exercise; floats and nested containers are rendered
approximately (a float as its rational value, containers element-wise). -/
def pyStr : PyVal → String
  | .str s => s
  | .int n => toString n
  | .float q => toString q
  | .list l => "[" ++ String.intercalate ", " (l.attach.map
      (fun v => pyStr v.1)) ++ "]"
  | .tuple l => "(" ++ String.intercalate ", " (l.attach.map
      (fun v => pyStr v.1)) ++ ")"
decreasing_by
  all_goals simp_wf
  all_goals have h := List.sizeOf_lt_of_mem v.2
  all_goals omega

/-- The message of the f-string
`f"Frequencies must be floating point values. Invalid element: {freq}."`. -/
def freqElemMsg (v : PyVal) : String :=
  "Frequencies must be floating point values. Invalid element: "
    ++ pyStr v ++ "."

/-- The `for freq in frequencies` loop of the constructor: scan the list in
order and raise `TypeError` at the first element that is not a float. -/
def checkFreqs : List PyVal → Option PyErr
  | [] => none
  | v :: rest =>
    match v with
    | .float _ => checkFreqs rest
    | _ => some (.typeError (freqElemMsg v))

/-- The fail-fast argument validation of `Corrections.__init__`, a direct
transcription of the `if`/`elif` cascade (lines 17–31 of the source):
`none` means all checks passed, `some e` the first exception raised. -/
def validate (adsorbate_name frequencies temperature : PyVal) :
    Option PyErr :=
  match adsorbate_name with
  | .str s =>
    if s.length = 0 then
      some (.valueError
        "The name of the adsorbate must contain at least one character.")
    else
      match frequencies with
      | .list l =>
        if l.length = 0 then
          some (.valueError
            "The list of frequencies must contain at least one value.")
        else
          match checkFreqs l with
          | some e => some e
          | none =>
            match temperature with
            | .float t =>
              if t ≤ 0 then
                some (.valueError "Temperature must be a positive value.")
              else none
            | _ => some (.typeError
                "Temperature must be a floating point value.")
      | _ => some (.typeError "Frequencies must be of type List.")
  | _ => some (.typeError
      "The name of the adsorbed specimen must be a string.")

/-- Extract the float payloads of a list of Python values (on a list that
passed `checkFreqs` this keeps every element, in order). -/
def toFloats (l : List PyVal) : List ℚ :=
  l.filterMap (fun v => match v with | .float q => some q | _ => none)

/-- The attributes `self.name`, `self.frequencies`, `self.temperature`,
`self.ZPE`, `self.S_vib`, `self.deltaU` stored by a successful
construction. -/
structure CorrState where
  name : String
  frequencies : List ℚ
  temperature : ℚ
  ZPE : ℝ
  S_vib : ℝ
  deltaU : ℝ

/-- Source constructor `Corrections.__init__`: run the validation cascade; on failure
propagate the exception, on success bind the attributes and compute the
three corrections from the stored frequency list and temperature. -/
noncomputable def init (adsorbate_name frequencies temperature : PyVal) :
    Except PyErr CorrState :=
  match validate adsorbate_name frequencies temperature with
  | some e => .error e
  | none =>
    let s := match adsorbate_name with | .str s => s | _ => ""
    let l := match frequencies with | .list l => l | _ => []
    let t : ℚ := match temperature with | .float q => q | _ => 0
    let fr : List ℝ := (toFloats l).map (fun q => (q : ℝ))
    .ok { name := s
          frequencies := toFloats l
          temperature := t
          ZPE := calculate_ZPE fr
          S_vib := calculate_Svib fr (t : ℝ)
          deltaU := calculate_deltaU fr (t : ℝ) }

/-- Transcription of the spec's formula (§4.3) for comparison with the
source: `S_vib = k_B * Σ_i [ x_i / (e^{x_i} - 1) - ln(1 - e^{-x_i}) ]`
with `x_i = h*c*ν_i / (k_B * T)`. -/
noncomputable def Svib_specFormula (fl : List ℝ) (T : ℝ) : ℝ :=
  boltzmann_constant * (fl.map (fun ν =>
    hnu_over_kt T ν / (Real.exp (hnu_over_kt T ν) - 1) -
    Real.log (1 - Real.exp (-(hnu_over_kt T ν))))).sum

/-- Transcription of the spec's formula (§4.4) for comparison with the
source: `ΔU(0→T) = k_B * Σ_i [ h*c*ν_i / (e^{x_i} - 1) ]`. -/
noncomputable def deltaU_specFormula (fl : List ℝ) (T : ℝ) : ℝ :=
  boltzmann_constant * (fl.map (fun ν =>
    planck_constant * speed_of_light * ν /
      (Real.exp (hnu_over_kt T ν) - 1))).sum

/-! ### The spec's decomposition of the validation cascade (§4.1)

One definition per check, in the spec's listed order; a check that does not
apply to the shape at hand (e.g. the name-length check on a non-string)
reports nothing, since the earlier check already rejects that shape. -/

/-- Spec §4.1 check 1: type of name. -/
def chkNameType : PyVal → Option PyErr
  | .str _ => none
  | _ => some (.typeError "The name of the adsorbed specimen must be a string.")

/-- Spec §4.1 check 2: length of name. -/
def chkNameLen : PyVal → Option PyErr
  | .str s =>
    if s.length = 0 then
      some (.valueError
        "The name of the adsorbate must contain at least one character.")
    else none
  | _ => none

/-- Spec §4.1 check 3: type of the frequency container. -/
def chkFreqContainer : PyVal → Option PyErr
  | .list _ => none
  | _ => some (.typeError "Frequencies must be of type List.")

/-- Spec §4.1 check 4: emptiness of the frequency container. -/
def chkFreqEmpty : PyVal → Option PyErr
  | .list l =>
    if l.length = 0 then
      some (.valueError
        "The list of frequencies must contain at least one value.")
    else none
  | _ => none

/-- Spec §4.1 check 5: type of each frequency element, scanning in order. -/
def chkFreqElems : PyVal → Option PyErr
  | .list l => checkFreqs l
  | _ => none

/-- Spec §4.1 check 6: type of temperature. -/
def chkTempType : PyVal → Option PyErr
  | .float _ => none
  | _ => some (.typeError "Temperature must be a floating point value.")

/-- Spec §4.1 check 7: value of temperature. -/
def chkTempVal : PyVal → Option PyErr
  | .float t =>
    if t ≤ 0 then some (.valueError "Temperature must be a positive value.")
    else none
  | _ => none

/-- The spec's validator (§4.1): run the seven checks in the listed order
and report the first failure. -/
def orderedChecks (n f t : PyVal) : Option PyErr :=
  chkNameType n <|> chkNameLen n <|> chkFreqContainer f <|> chkFreqEmpty f
    <|> chkFreqElems f <|> chkTempType t <|> chkTempVal t

/-! ### Helper lemmas on the physical constants -/

lemma hc_pos : 0 < planck_constant * speed_of_light := by
  unfold planck_constant speed_of_light; norm_num

lemma kB_pos : 0 < boltzmann_constant := by
  unfold boltzmann_constant; norm_num

lemma kB_ne_zero : boltzmann_constant ≠ 0 := ne_of_gt kB_pos

lemma kB_ne_one : boltzmann_constant ≠ 1 := by
  unfold boltzmann_constant; norm_num

/-! ### C3, C10, C7: the zero-point-energy calculator -/

/-- C3: `calculate_ZPE` is `0.5 * Σ_i (h*c*ν_i)` summed in list order
(characterised by its cons/nil recursion; the function takes no temperature
argument, so it is independent of temperature), and on a one-element list
`[ν]` it is exactly `0.5*h*c*ν`. -/
theorem C3_zpe_formula :
    (∀ ν rest, calculate_ZPE (ν :: rest)
        = 0.5 * (planck_constant * speed_of_light * ν) + calculate_ZPE rest)
    ∧ calculate_ZPE [] = 0
    ∧ (∀ ν, calculate_ZPE [ν]
        = 0.5 * (planck_constant * speed_of_light * ν)) := by
  refine ⟨fun ν rest => ?_, ?_, fun ν => ?_⟩ <;>
    simp [calculate_ZPE, mul_add]

/-- C10: the three calculators are total functions; on the empty frequency
list each returns `0` (the empty sum), for every temperature. -/
theorem C10_empty_list_calculators :
    calculate_ZPE [] = 0
    ∧ (∀ T : ℝ, calculate_Svib [] T = 0)
    ∧ (∀ T : ℝ, calculate_deltaU [] T = 0) := by
  refine ⟨?_, fun T => ?_, fun T => ?_⟩ <;>
    simp [calculate_ZPE, calculate_Svib, calculate_deltaU]

/-- C7: replacing the `i`-th frequency by a strictly larger value strictly
increases the zero-point energy, all other entries held fixed. -/
theorem C7_zpe_strict_mono (fl : List ℝ) (i : ℕ) (h : i < fl.length)
    (v : ℝ) (hv : fl.get ⟨i, h⟩ < v) :
    calculate_ZPE fl < calculate_ZPE (fl.set i v) := by
  induction fl generalizing i with
  | nil => simp at h
  | cons a rest ih =>
    cases i with
    | zero =>
      have hf : planck_constant * speed_of_light * a
          < planck_constant * speed_of_light * v :=
        mul_lt_mul_of_pos_left (by simpa using hv) hc_pos
      simp only [List.set, calculate_ZPE, List.map_cons, List.sum_cons]
      linarith
    | succ n =>
      have hlen : n < rest.length := by simpa using h
      have hrec := ih n hlen (by simpa using hv)
      simp only [List.set, calculate_ZPE, List.map_cons, List.sum_cons]
        at hrec ⊢
      linarith

/-- Instantiation of `C7_zpe_strict_mono` at `fl = [1]`, `i = 0`, `v = 2`. -/
theorem C7_zpe_strict_mono_witness :
    calculate_ZPE [(1 : ℝ)] < calculate_ZPE ([(1 : ℝ)].set 0 2) :=
  C7_zpe_strict_mono [1] 0 (by simp) 2 (by norm_num [List.get])

/-! ### C1, C2: the entropy and internal-energy calculators against the
spec's formulas -/

lemma kB_cancel (a d : ℝ) :
    boltzmann_constant * (a / (boltzmann_constant * d)) = a / d := by
  rw [mul_div_assoc']
  exact mul_div_mul_left a d kB_ne_zero

/-- The source's `calculate_deltaU` equals `Σ_i h*c*ν_i/(e^{x_i}-1)`: the
prefactor `gas_constant_R` cancels against the `boltzmann_constant` in each
denominator. -/
lemma deltaU_eq_sum (fl : List ℝ) (T : ℝ) :
    calculate_deltaU fl T = (fl.map (fun ν =>
      planck_constant * speed_of_light * ν /
        (Real.exp (hnu_over_kt T ν) - 1))).sum := by
  induction fl with
  | nil => simp [calculate_deltaU]
  | cons a rest ih =>
    simp only [calculate_deltaU, gas_constant_R, List.map_cons,
      List.sum_cons, mul_add] at ih ⊢
    rw [kB_cancel, ih]

/-- The source's `calculate_Svib` coincides with the spec's formula: each
source term `h*c*ν/(k_B*T*(e^x-1))` is definitionally `x/(e^x-1)`. -/
lemma Svib_eq_specFormula (fl : List ℝ) (T : ℝ) :
    calculate_Svib fl T = Svib_specFormula fl T := by
  unfold calculate_Svib Svib_specFormula gas_constant_R hnu_over_kt
  simp only [div_div]

/-- C2: for every valid request the computed vibrational entropy is
`k_B * Σ_i [ x_i/(e^{x_i}-1) - ln(1-e^{-x_i}) ]` with
`x_i = h*c*ν_i/(k_B*T)`, the prefactor being the per-molecule Boltzmann
constant. -/
theorem C2_Svib_matches_spec (fl : List ℝ) (T : ℝ) (_hfl : fl ≠ [])
    (_hT : 0 < T) : calculate_Svib fl T = Svib_specFormula fl T :=
  Svib_eq_specFormula fl T

/-- Instantiation of `C2_Svib_matches_spec` at `fl = [1]`, `T = 1`. -/
theorem C2_Svib_matches_spec_witness :
    ([(1 : ℝ)] ≠ ([] : List ℝ) ∧ (0 : ℝ) < 1)
    ∧ calculate_Svib [(1 : ℝ)] 1 = Svib_specFormula [(1 : ℝ)] 1 :=
  ⟨⟨by simp, by norm_num⟩,
    C2_Svib_matches_spec [(1 : ℝ)] 1 (by simp) (by norm_num)⟩

/-- C1 (counterexample): at the valid request `fl = [1]`, `T = 1` the value
computed by `calculate_deltaU` differs from the spec's formula
`k_B * Σ_i [ h*c*ν_i / (e^{x_i} - 1) ]` — the spec's formula carries a
spurious extra factor `k_B`. -/
theorem C1_deltaU_counterexample :
    calculate_deltaU [(1 : ℝ)] 1 ≠ deltaU_specFormula [(1 : ℝ)] 1 := by
  have hx : 0 < hnu_over_kt 1 1 := by
    unfold hnu_over_kt
    exact div_pos (by simpa using hc_pos) (by simpa using kB_pos)
  have hden : 0 < Real.exp (hnu_over_kt 1 1) - 1 :=
    sub_pos.2 (Real.one_lt_exp_iff.2 hx)
  have hA : 0 < planck_constant * speed_of_light * 1 /
      (Real.exp (hnu_over_kt 1 1) - 1) :=
    div_pos (by simpa using hc_pos) hden
  have hkB : boltzmann_constant < 1 := by
    unfold boltzmann_constant; norm_num
  have hlhs : calculate_deltaU [(1 : ℝ)] 1
      = planck_constant * speed_of_light * 1 /
          (Real.exp (hnu_over_kt 1 1) - 1) := by
    rw [deltaU_eq_sum]; simp
  have hrhs : deltaU_specFormula [(1 : ℝ)] 1
      = boltzmann_constant * (planck_constant * speed_of_light * 1 /
          (Real.exp (hnu_over_kt 1 1) - 1)) := by
    unfold deltaU_specFormula; simp
  rw [hlhs, hrhs]
  intro hEq
  have hlt : boltzmann_constant * (planck_constant * speed_of_light * 1 /
      (Real.exp (hnu_over_kt 1 1) - 1))
      < planck_constant * speed_of_light * 1 /
          (Real.exp (hnu_over_kt 1 1) - 1) :=
    mul_lt_of_lt_one_left hA hkB
  linarith

/-- C1 (amended): for every valid request the computed `delta_u` equals
`Σ_i [ h*c*ν_i / (e^{x_i} - 1) ]`, i.e. the spec's formula without its
leading `k_B` factor (the source's `gas_constant_R` prefactor cancels the
`boltzmann_constant` inside each term). -/
theorem C1_deltaU_amended (fl : List ℝ) (T : ℝ) (_hfl : fl ≠ [])
    (_hT : 0 < T) :
    calculate_deltaU fl T = (fl.map (fun ν =>
      planck_constant * speed_of_light * ν /
        (Real.exp (hnu_over_kt T ν) - 1))).sum :=
  deltaU_eq_sum fl T

/-- Instantiation of `C1_deltaU_amended` at `fl = [1]`, `T = 1`. -/
theorem C1_deltaU_amended_witness :
    ([(1 : ℝ)] ≠ ([] : List ℝ) ∧ (0 : ℝ) < 1)
    ∧ calculate_deltaU [(1 : ℝ)] 1 = ([(1 : ℝ)].map (fun ν =>
        planck_constant * speed_of_light * ν /
          (Real.exp (hnu_over_kt 1 ν) - 1))).sum :=
  ⟨⟨by simp, by norm_num⟩,
    C1_deltaU_amended [(1 : ℝ)] 1 (by simp) (by norm_num)⟩

/-! ### Helper lemmas on the validation cascade -/

lemma checkFreqs_none_iff (l : List PyVal) :
    checkFreqs l = none ↔ ∀ v ∈ l, ∃ q, v = PyVal.float q := by
  induction l with
  | nil => simp [checkFreqs]
  | cons v rest ih => cases v <;> simp [checkFreqs, ih]

lemma checkFreqs_none_map (l : List PyVal) (h : checkFreqs l = none) :
    (toFloats l).map PyVal.float = l := by
  induction l with
  | nil => simp [toFloats]
  | cons v rest ih =>
    cases v with
    | float q =>
      simp only [checkFreqs] at h
      simp only [toFloats, List.filterMap_cons] at ih ⊢
      simp [ih h]
    | str s => simp [checkFreqs] at h
    | int n => simp [checkFreqs] at h
    | list l2 => simp [checkFreqs] at h
    | tuple l2 => simp [checkFreqs] at h

lemma checkFreqs_first_offender (pre : List PyVal) (v : PyVal)
    (rest : List PyVal) (hpre : ∀ u ∈ pre, ∃ q, u = PyVal.float q)
    (hv : ∀ q, v ≠ PyVal.float q) :
    checkFreqs (pre ++ v :: rest)
      = some (PyErr.typeError (freqElemMsg v)) := by
  induction pre with
  | nil =>
    cases v with
    | float q => exact absurd rfl (hv q)
    | str s => simp [checkFreqs]
    | int n => simp [checkFreqs]
    | list l => simp [checkFreqs]
    | tuple l => simp [checkFreqs]
  | cons u pre' ih =>
    obtain ⟨q, rfl⟩ := hpre u (by simp)
    simpa only [List.cons_append, checkFreqs]
      using ih (fun w hw => hpre w (by simp [hw]))

lemma checkFreqs_some_shape (l : List PyVal) (e : PyErr)
    (h : checkFreqs l = some e) :
    ∃ v, e = PyErr.typeError (freqElemMsg v) := by
  induction l with
  | nil => simp [checkFreqs] at h
  | cons v rest ih =>
    cases v with
    | float q => exact ih (by simpa [checkFreqs] using h)
    | str s =>
      simp only [checkFreqs, Option.some.injEq] at h
      exact ⟨_, h.symm⟩
    | int n =>
      simp only [checkFreqs, Option.some.injEq] at h
      exact ⟨_, h.symm⟩
    | list l2 =>
      simp only [checkFreqs, Option.some.injEq] at h
      exact ⟨_, h.symm⟩
    | tuple l2 =>
      simp only [checkFreqs, Option.some.injEq] at h
      exact ⟨_, h.symm⟩

lemma freqElemMsg_ne_container (v : PyVal) :
    freqElemMsg v ≠ "Frequencies must be of type List." := by
  intro h
  have hlen := congrArg String.length h
  rw [freqElemMsg, String.length_append, String.length_append] at hlen
  have h60 : ("Frequencies must be floating point values. Invalid element: "
      : String).length = 60 := by decide
  have h1 : ("." : String).length = 1 := by decide
  have h33 : ("Frequencies must be of type List." : String).length = 33 := by
    decide
  rw [h60, h1, h33] at hlen
  omega

lemma init_error_iff (n f t : PyVal) (e : PyErr) :
    init n f t = Except.error e ↔ validate n f t = some e := by
  cases hv : validate n f t <;> simp [init, hv]

/-! ### C5: order of the validation checks -/

lemma validate_eq_orderedChecks (n f t : PyVal) :
    validate n f t = orderedChecks n f t := by
  cases n with
  | str s =>
    by_cases hs : s.length = 0
    · simp [validate, orderedChecks, chkNameType, chkNameLen, hs]
    · cases f with
      | list l =>
        by_cases hl : l.length = 0
        · simp [validate, orderedChecks, chkNameType, chkNameLen,
            chkFreqContainer, chkFreqEmpty, hs, hl]
        · cases hcf : checkFreqs l with
          | some e =>
            simp [validate, orderedChecks, chkNameType, chkNameLen,
              chkFreqContainer, chkFreqEmpty, chkFreqElems, hs, hl, hcf]
          | none =>
            cases t with
            | float q =>
              by_cases hq : q ≤ 0 <;>
                simp [validate, orderedChecks, chkNameType, chkNameLen,
                  chkFreqContainer, chkFreqEmpty, chkFreqElems, chkTempType,
                  chkTempVal, hs, hl, hcf, hq]
            | str s2 =>
              simp [validate, orderedChecks, chkNameType, chkNameLen,
                chkFreqContainer, chkFreqEmpty, chkFreqElems, chkTempType,
                hs, hl, hcf]
            | int k =>
              simp [validate, orderedChecks, chkNameType, chkNameLen,
                chkFreqContainer, chkFreqEmpty, chkFreqElems, chkTempType,
                hs, hl, hcf]
            | list l2 =>
              simp [validate, orderedChecks, chkNameType, chkNameLen,
                chkFreqContainer, chkFreqEmpty, chkFreqElems, chkTempType,
                hs, hl, hcf]
            | tuple l2 =>
              simp [validate, orderedChecks, chkNameType, chkNameLen,
                chkFreqContainer, chkFreqEmpty, chkFreqElems, chkTempType,
                hs, hl, hcf]
      | str s2 =>
        simp [validate, orderedChecks, chkNameType, chkNameLen,
          chkFreqContainer, hs]
      | int k =>
        simp [validate, orderedChecks, chkNameType, chkNameLen,
          chkFreqContainer, hs]
      | float q =>
        simp [validate, orderedChecks, chkNameType, chkNameLen,
          chkFreqContainer, hs]
      | tuple l =>
        simp [validate, orderedChecks, chkNameType, chkNameLen,
          chkFreqContainer, hs]
  | int k => simp [validate, orderedChecks, chkNameType]
  | float q => simp [validate, orderedChecks, chkNameType]
  | list l => simp [validate, orderedChecks, chkNameType]
  | tuple l => simp [validate, orderedChecks, chkNameType]

/-- C5: the constructor's validation is exactly the spec's ordered cascade
(type of name → length of name → type of container → emptiness → element
types scanning in order → type of temperature → value of temperature),
reporting the first failing check; the element scan reports the first
offender; the constructor raises exactly when validation fails (and as a
pure function has no side effect beyond returning that exception). -/
theorem C5_validation_order :
    (∀ n f t, validate n f t = orderedChecks n f t)
    ∧ (∀ n f t e, init n f t = Except.error e ↔ validate n f t = some e)
    ∧ (∀ pre v rest, (∀ u ∈ pre, ∃ q, u = PyVal.float q) →
        (∀ q, v ≠ PyVal.float q) →
        checkFreqs (pre ++ v :: rest)
          = some (PyErr.typeError (freqElemMsg v))) :=
  ⟨validate_eq_orderedChecks, init_error_iff,
    fun pre v rest hpre hv => checkFreqs_first_offender pre v rest hpre hv⟩

/-- Instantiation of `C5_validation_order`: the cascade equality at a
passing input, the raise/validation equivalence at an empty name, and the
first-offender scan on `[1.0, "bad"]`. -/
theorem C5_validation_order_witness :
    validate (.str "O") (.list [PyVal.float 1]) (.float 300)
      = orderedChecks (.str "O") (.list [PyVal.float 1]) (.float 300)
    ∧ (init (.str "") (.list []) (.int 3)
        = Except.error (PyErr.valueError
            "The name of the adsorbate must contain at least one character.")
      ↔ validate (.str "") (.list []) (.int 3)
        = some (PyErr.valueError
            "The name of the adsorbate must contain at least one character."))
    ∧ checkFreqs ([PyVal.float 1] ++ PyVal.str "bad" :: [])
        = some (PyErr.typeError (freqElemMsg (PyVal.str "bad"))) :=
  ⟨C5_validation_order.1 _ _ _, C5_validation_order.2.1 _ _ _ _,
    C5_validation_order.2.2 [PyVal.float 1] (PyVal.str "bad") []
      (by simp) (by simp)⟩

/-! ### C6: value errors on type-correct inputs -/

/-- C6: on a type-correct input (string name, list of floats, float
temperature), validation reports `InvalidArgumentValue` iff the name has
zero length, or the list is empty, or the temperature is ≤ 0; otherwise it
passes and construction returns a result. -/
theorem C6_value_errors (s : String) (l : List PyVal) (q : ℚ)
    (hfl : checkFreqs l = none) :
    ((∃ m, validate (.str s) (.list l) (.float q)
        = some (PyErr.valueError m))
      ↔ (s.length = 0 ∨ l = [] ∨ q ≤ 0))
    ∧ (validate (.str s) (.list l) (.float q) = none
      ↔ ¬(s.length = 0 ∨ l = [] ∨ q ≤ 0))
    ∧ (validate (.str s) (.list l) (.float q) = none
      → ∃ st, init (.str s) (.list l) (.float q) = Except.ok st) := by
  have h2iff : l.length = 0 ↔ l = [] := List.length_eq_zero
  refine ⟨?_, ?_, ?_⟩
  · by_cases h1 : s.length = 0 <;> by_cases h2 : l.length = 0 <;>
      by_cases h3 : q ≤ 0 <;>
      simp [validate, hfl, h1, h2, h3, ← h2iff]
  · by_cases h1 : s.length = 0 <;> by_cases h2 : l.length = 0 <;>
      by_cases h3 : q ≤ 0 <;>
      simp [validate, hfl, h1, h2, h3, ← h2iff]
  · intro hv
    simp only [init, hv]
    exact ⟨_, rfl⟩

/-- Instantiation of `C6_value_errors` at name `"O"`, list `[1.0]` and
temperatures `0` (a value error) — the `≤ 0` disjunct is decidable there. -/
theorem C6_value_errors_witness :
    ((∃ m, validate (.str "O") (.list [PyVal.float 1]) (.float 0)
        = some (PyErr.valueError m))
      ↔ (("O" : String).length = 0 ∨ [PyVal.float 1] = [] ∨ (0 : ℚ) ≤ 0))
    ∧ (validate (.str "O") (.list [PyVal.float 1]) (.float 0) = none
      ↔ ¬(("O" : String).length = 0 ∨ [PyVal.float 1] = [] ∨ (0 : ℚ) ≤ 0))
    ∧ (validate (.str "O") (.list [PyVal.float 1]) (.float 0) = none
      → ∃ st, init (.str "O") (.list [PyVal.float 1]) (.float 0)
          = Except.ok st) :=
  C6_value_errors "O" [PyVal.float 1] 0 (by decide)

/-! ### C4: the container-type check accepts lists only -/

/-- C4 (counterexample): a tuple of floats is a sequence of floats, yet the
constructor raises `InvalidArgumentType` for the container — the check is
`isinstance(frequencies, List)`, not a general sequence-type check. -/
theorem C4_container_counterexample :
    validate (.str "O") (.tuple [PyVal.float 1]) (.float 300)
      = some (PyErr.typeError "Frequencies must be of type List.") := by
  decide

/-- C4 (amended): once the name checks pass, the container-type error is
raised exactly when the frequency argument is not a `list`; every non-list
value — tuples of floats included — is rejected, and a `list` never
triggers this error. -/
theorem C4_container_check (s : String) (hs : s.length ≠ 0) (f t : PyVal) :
    validate (.str s) f t
        = some (PyErr.typeError "Frequencies must be of type List.")
      ↔ ∀ l, f ≠ PyVal.list l := by
  cases f with
  | list l =>
    refine iff_of_false ?_ (by simp)
    by_cases hl : l.length = 0
    · simp [validate, hs, hl]
    · cases hcf : checkFreqs l with
      | some e =>
        obtain ⟨v, rfl⟩ := checkFreqs_some_shape l e hcf
        simp [validate, hs, hl, hcf, freqElemMsg_ne_container v]
      | none =>
        cases t with
        | float q =>
          by_cases hq : q ≤ 0 <;> simp [validate, hs, hl, hcf, hq]
        | str s2 => simp [validate, hs, hl, hcf]
        | int k => simp [validate, hs, hl, hcf]
        | list l2 => simp [validate, hs, hl, hcf]
        | tuple l2 => simp [validate, hs, hl, hcf]
  | str s2 => exact iff_of_true (by simp [validate, hs]) (by simp)
  | int k => exact iff_of_true (by simp [validate, hs]) (by simp)
  | float q => exact iff_of_true (by simp [validate, hs]) (by simp)
  | tuple l => exact iff_of_true (by simp [validate, hs]) (by simp)

/-- Instantiation of `C4_container_check` at name `"O"` and a tuple
container. -/
theorem C4_container_check_witness :
    validate (.str "O") (.tuple [PyVal.float 1]) (.float 300)
        = some (PyErr.typeError "Frequencies must be of type List.")
      ↔ ∀ l, PyVal.tuple [PyVal.float 1] ≠ PyVal.list l :=
  C4_container_check "O" (by decide) (.tuple [PyVal.float 1]) (.float 300)

/-! ### C8: integer inputs are rejected as type errors -/

/-- C8: an integer temperature on an otherwise valid input raises
`InvalidArgumentType` (Python `int`s are not `float` instances); an integer
frequency element at any position of the list — all elements before it
being floats, as on an otherwise-valid input — raises the element type
error naming that integer; in particular on `[100, "bad"]` the offender
reported is `100`, not `"bad"`. -/
theorem C8_integer_inputs :
    (∀ (s : String) (l : List PyVal) (k : ℤ), s.length ≠ 0 →
        l.length ≠ 0 → checkFreqs l = none →
        validate (.str s) (.list l) (.int k)
          = some (PyErr.typeError
              "Temperature must be a floating point value."))
    ∧ (∀ (s : String) (pre : List PyVal) (k : ℤ) (rest : List PyVal)
        (t : PyVal), s.length ≠ 0 →
        (∀ u ∈ pre, ∃ q, u = PyVal.float q) →
        validate (.str s) (.list (pre ++ PyVal.int k :: rest)) t
          = some (PyErr.typeError (freqElemMsg (PyVal.int k))))
    ∧ validate (.str "O") (.list [PyVal.int 100, PyVal.str "bad"])
        (.float 300)
        = some (PyErr.typeError
            "Frequencies must be floating point values. Invalid element: 100.") := by
  have hmsg : freqElemMsg (PyVal.int 100)
      = "Frequencies must be floating point values. Invalid element: 100."
      := by
    rw [freqElemMsg]
    simp only [pyStr]
    decide
  have hscan : ∀ (s : String) (pre : List PyVal) (k : ℤ) (rest : List PyVal)
      (t : PyVal), s.length ≠ 0 →
      (∀ u ∈ pre, ∃ q, u = PyVal.float q) →
      validate (.str s) (.list (pre ++ PyVal.int k :: rest)) t
        = some (PyErr.typeError (freqElemMsg (PyVal.int k))) := by
    intro s pre k rest t hs hpre
    have hcf := checkFreqs_first_offender pre (PyVal.int k) rest hpre
      (fun q h => by cases h)
    have hlen : (pre ++ PyVal.int k :: rest).length ≠ 0 := by simp
    simp [validate, hs, hlen, hcf]
  refine ⟨fun s l k hs hl hcf => ?_, hscan, ?_⟩
  · simp [validate, hs, hl, hcf]
  · have h3 := hscan "O" [] 100 [PyVal.str "bad"] (.float 300) (by decide)
      (by simp)
    rw [hmsg] at h3
    simpa using h3

/-- Instantiation of `C8_integer_inputs` at an integer temperature `300`
and at an integer element after a float prefix, `[1.0] ++ 100 :: ["bad"]`. -/
theorem C8_integer_inputs_witness :
    validate (.str "O") (.list [PyVal.float 1]) (.int 300)
      = some (PyErr.typeError "Temperature must be a floating point value.")
    ∧ validate (.str "O")
        (.list ([PyVal.float 1] ++ PyVal.int 100 :: [PyVal.str "bad"]))
        (.float 300)
      = some (PyErr.typeError (freqElemMsg (PyVal.int 100))) :=
  ⟨C8_integer_inputs.1 "O" [PyVal.float 1] 300 (by decide) (by decide)
      (by decide),
    C8_integer_inputs.2.1 "O" [PyVal.float 1] 100 [PyVal.str "bad"]
      (.float 300) (by decide) (by simp)⟩

/-! ### C9: the frequency list is stored and consumed unchanged -/

lemma validate_none_anatomy (n f t : PyVal) (h : validate n f t = none) :
    (∃ s, n = PyVal.str s ∧ s.length ≠ 0)
    ∧ (∃ l, f = PyVal.list l ∧ l ≠ [] ∧ checkFreqs l = none)
    ∧ (∃ q, t = PyVal.float q ∧ ¬q ≤ 0) := by
  cases n with
  | str s =>
    by_cases hs : s.length = 0
    · simp [validate, hs] at h
    · cases f with
      | list l =>
        by_cases hl : l.length = 0
        · simp [validate, hs, hl] at h
        · cases hcf : checkFreqs l with
          | some e => simp [validate, hs, hl, hcf] at h
          | none =>
            cases t with
            | float q =>
              by_cases hq : q ≤ 0
              · simp [validate, hs, hl, hcf, hq] at h
              · exact ⟨⟨s, rfl, hs⟩,
                  ⟨l, rfl, fun he => hl (by simp [he]), hcf⟩,
                  ⟨q, rfl, hq⟩⟩
            | str s2 => simp [validate, hs, hl, hcf] at h
            | int k => simp [validate, hs, hl, hcf] at h
            | list l2 => simp [validate, hs, hl, hcf] at h
            | tuple l2 => simp [validate, hs, hl, hcf] at h
      | str s2 => simp [validate, hs] at h
      | int k => simp [validate, hs] at h
      | float q => simp [validate, hs] at h
      | tuple l2 => simp [validate, hs] at h
  | int k => simp [validate] at h
  | float q => simp [validate] at h
  | list l => simp [validate] at h
  | tuple l => simp [validate] at h

/-- C9: a successful construction stores exactly the caller's frequency
list (same length, same elements, same order — `st.frequencies` maps back
to the argument), and the three calculators are applied to that unchanged
list; the embedding is pure, mirroring a constructor that never mutates its
argument. -/
theorem C9_frequencies_preserved (n : PyVal) (l : List PyVal) (t : PyVal)
    (h : validate n (.list l) t = none) :
    ∃ st, init n (.list l) t = Except.ok st
      ∧ st.frequencies = toFloats l
      ∧ st.frequencies.map PyVal.float = l
      ∧ st.ZPE = calculate_ZPE ((toFloats l).map (fun q => (q : ℝ)))
      ∧ st.S_vib = calculate_Svib ((toFloats l).map (fun q => (q : ℝ)))
          (st.temperature : ℝ)
      ∧ st.deltaU = calculate_deltaU ((toFloats l).map (fun q => (q : ℝ)))
          (st.temperature : ℝ) := by
  obtain ⟨-, ⟨l', hl', -, hcf⟩, -⟩ := validate_none_anatomy n (.list l) t h
  obtain rfl : l = l' := by injection hl'
  simp only [init, h]
  exact ⟨_, rfl, rfl, checkFreqs_none_map l hcf, rfl, rfl, rfl⟩

/-- Instantiation of `C9_frequencies_preserved` at name `"O"`, frequency
list `[1.0]`, temperature `300.0`. -/
theorem C9_frequencies_preserved_witness :
    ∃ st, init (.str "O") (.list [PyVal.float 1]) (.float 300)
        = Except.ok st
      ∧ st.frequencies = toFloats [PyVal.float 1]
      ∧ st.frequencies.map PyVal.float = [PyVal.float 1]
      ∧ st.ZPE = calculate_ZPE
          ((toFloats [PyVal.float 1]).map (fun q => (q : ℝ)))
      ∧ st.S_vib = calculate_Svib
          ((toFloats [PyVal.float 1]).map (fun q => (q : ℝ)))
          (st.temperature : ℝ)
      ∧ st.deltaU = calculate_deltaU
          ((toFloats [PyVal.float 1]).map (fun q => (q : ℝ)))
          (st.temperature : ℝ) :=
  C9_frequencies_preserved (.str "O") [PyVal.float 1] (.float 300)
    (by decide)
